import Mathlib

/-!
Verification development for the `memoize_query` memoization core of the
`insights` repository (src/edinsights/core/decorators.py).

The embedding models:
* Python runtime values (`PyVal`) as far as the cache machinery inspects them
  (truthiness, equality with the sentinel string, `str(type(...))`, `repr`);
* the MD4 digest used by `make_cache_key` (RFC 1320), over `Nat` with
  explicit reduction mod 2^32;
* the Django cache as an association list of entries with absolute expiry
  ticks (one tick = 0.1 s, the poll interval of the source);
* the three operating modes `opmode_default`, `opmode_forcememoize`,
  `opmode_forceretrieve`, the helpers `make_cache_key`, `isuseful`,
  `compute_and_cache`, `get_from_cache_if_possible`, and the `cron` /
  `mq_force_memoize` mode selection.
-/

set_option maxRecDepth 16384

/-- Python values, as far as the memoization engine inspects them. -/
inductive PyVal where
  | none
  | int (n : Int)
  | str (s : String)
  | obj (cls : String) (addr : Nat)
deriving DecidableEq, Repr

/-- Python truthiness: `None`, `0` and the empty string are falsy. -/
def pyTruthy : PyVal → Bool
  | PyVal.none => false
  | PyVal.int n => n != 0
  | PyVal.str s => s != ""
  | PyVal.obj _ _ => true

/-- Python `str(type(v))` for the modelled values (old-style type names for
builtins, class-style names for instances, as in Python 2). -/
def pyTypeStr : PyVal → String
  | PyVal.none => "<type 'NoneType'>"
  | PyVal.int _ => "<type 'int'>"
  | PyVal.str _ => "<type 'str'>"
  | PyVal.obj cls _ => "<class '" ++ cls ++ "'>"

/-- Hex digit character of a value below 16 (digits, then lowercase
letters). -/
def hexChar (n : Nat) : Char :=
  if n < 10 then Char.ofNat (48 + n) else Char.ofNat (87 + n)

/-- Hexadecimal rendering of a natural number (no leading zeros, lower case). -/
def natHex : Nat → String
  | 0 => "0"
  | n+1 =>
    let rec go : Nat → Nat → String
      | 0, _ => ""
      | _, 0 => ""
      | fuel+1, m => go fuel (m / 16) ++ String.mk [hexChar (m % 16)]
    go (n+1) (n+1)

/-- Whether a string holds a given character (over the character list, so
that it evaluates inside the kernel). -/
def strHasChar (s : String) (ch : Char) : Bool := s.data.contains ch

/-- Escape single quotes with a backslash, as Python string `repr` does
when forced to single-quote a string holding both quote kinds. -/
def escSingleQuotes : List Char → List Char
  | [] => []
  | ch :: rest =>
    if ch = '\'' then '\\' :: '\'' :: escSingleQuotes rest
    else ch :: escSingleQuotes rest

/-- Python `repr` of a modelled value (strings are quoted with Python's
quote-selection rule; object instances render with their address, as
`repr` of an instance does). -/
def pyRepr : PyVal → String
  | PyVal.none => "None"
  | PyVal.int n => toString n
  | PyVal.str s =>
    if (!strHasChar s '\'') then "'" ++ s ++ "'"
    else if (!strHasChar s '"') then "\"" ++ s ++ "\""
    else "'" ++ String.mk (escSingleQuotes s.data) ++ "'"
  | PyVal.obj cls addr => "<" ++ cls ++ " object at 0x" ++ natHex addr ++ ">"

/-- Python `repr` of a list of values. -/
def pyListRepr (xs : List PyVal) : String :=
  "[" ++ String.intercalate ", " (xs.map pyRepr) ++ "]"

/-- Python `repr` of a keyword-argument dict, serialized in the given
(insertion) order — the source states the assumption that the dict is
dumped in a stable order. -/
def pyDictRepr (kwargs : List (String × PyVal)) : String :=
  "\x7b" ++
    String.intercalate ", "
      (kwargs.map (fun kv => pyRepr (PyVal.str kv.1) ++ ": " ++ pyRepr kv.2)) ++
  "\x7d"

/-! ## MD4 (RFC 1320), on `Nat` reduced mod 2^32 -/

/-- Truncate to a 32-bit word. -/
def u32 (n : Nat) : Nat := n % 4294967296

/-- Left-rotation of a 32-bit word. -/
def rotl32 (x s : Nat) : Nat := u32 ((x <<< s) ||| (x >>> (32 - s)))

/-- MD4 auxiliary function F. -/
def md4F (x y z : Nat) : Nat := (x &&& y) ||| ((4294967295 ^^^ x) &&& z)

/-- MD4 auxiliary function G. -/
def md4G (x y z : Nat) : Nat := (x &&& y) ||| (x &&& z) ||| (y &&& z)

/-- MD4 auxiliary function H. -/
def md4H (x y z : Nat) : Nat := x ^^^ y ^^^ z

/-- One MD4 step; the state is rotated so every step updates the head slot. -/
def md4Step (f : Nat → Nat → Nat → Nat) (add : Nat) (X : List Nat)
    (st : Nat × Nat × Nat × Nat) (ks : Nat × Nat) : Nat × Nat × Nat × Nat :=
  let (a, b, c, d) := st
  let a2 := rotl32 (u32 (a + f b c d + X.getD ks.1 0 + add)) ks.2
  (d, a2, b, c)

/-- Word-index/shift schedule of MD4 round 1. -/
def md4Sched1 : List (Nat × Nat) :=
  [(0,3),(1,7),(2,11),(3,19),(4,3),(5,7),(6,11),(7,19),
   (8,3),(9,7),(10,11),(11,19),(12,3),(13,7),(14,11),(15,19)]

/-- Word-index/shift schedule of MD4 round 2. -/
def md4Sched2 : List (Nat × Nat) :=
  [(0,3),(4,5),(8,9),(12,13),(1,3),(5,5),(9,9),(13,13),
   (2,3),(6,5),(10,9),(14,13),(3,3),(7,5),(11,9),(15,13)]

/-- Word-index/shift schedule of MD4 round 3. -/
def md4Sched3 : List (Nat × Nat) :=
  [(0,3),(8,9),(4,11),(12,15),(2,3),(10,9),(6,11),(14,15),
   (1,3),(9,9),(5,11),(13,15),(3,3),(11,9),(7,11),(15,15)]

/-- Compress one 16-word block into the MD4 state. -/
def md4Block (st : Nat × Nat × Nat × Nat) (X : List Nat) : Nat × Nat × Nat × Nat :=
  let s1 := md4Sched1.foldl (md4Step md4F 0 X) st
  let s2 := md4Sched2.foldl (md4Step md4G 1518500249 X) s1
  let s3 := md4Sched3.foldl (md4Step md4H 1859775393 X) s2
  (u32 (s3.1 + st.1), u32 (s3.2.1 + st.2.1),
   u32 (s3.2.2.1 + st.2.2.1), u32 (s3.2.2.2 + st.2.2.2))

/-- RFC 1320 padding: append 0x80, zero bytes to 56 mod 64, then the bit
length as eight little-endian bytes. -/
def md4Pad (msg : List Nat) : List Nat :=
  let len := msg.length
  let z := (119 - (len % 64)) % 64
  msg ++ [128] ++ List.replicate z 0 ++
    ((List.range 8).map (fun i => ((len * 8) >>> (8 * i)) % 256))

/-- Group bytes into 32-bit little-endian words. -/
def md4Words : List Nat → List Nat
  | b0 :: b1 :: b2 :: b3 :: rest =>
    (b0 + 256 * b1 + 65536 * b2 + 16777216 * b3) :: md4Words rest
  | _ => []

/-- Split a word list into 16-word blocks (fuel-driven). -/
def md4Chunks : Nat → List Nat → List (List Nat)
  | 0, _ => []
  | _, [] => []
  | fuel+1, ws => ws.take 16 :: md4Chunks fuel (ws.drop 16)

/-- MD4 digest state of a byte message. -/
def md4Digest (msg : List Nat) : Nat × Nat × Nat × Nat :=
  let ws := md4Words (md4Pad msg)
  (md4Chunks ws.length ws).foldl md4Block (1732584193, 4023233417, 2562383102, 271733878)

/-- Two lowercase hex characters of a byte. -/
def byteHex (b : Nat) : String := String.mk [hexChar (b / 16), hexChar (b % 16)]

/-- Eight hex characters of a 32-bit word, little-endian byte order. -/
def wordHexLE (w : Nat) : String :=
  byteHex (w % 256) ++ byteHex ((w >>> 8) % 256) ++
  byteHex ((w >>> 16) % 256) ++ byteHex ((w >>> 24) % 256)

/-- The `hexdigest()` of the MD4 of an ASCII string. -/
def md4Hex (s : String) : String :=
  let st := md4Digest (s.data.map Char.toNat)
  wordHexLE st.1 ++ wordHexLE st.2.1 ++ wordHexLE st.2.2.1 ++ wordHexLE st.2.2.2

/-! ## The cache store

The Django cache is modelled as an association list from keys to entries
carrying an absolute expiry tick.  One tick is 0.1 s — the poll interval of
`get_from_cache_if_possible` — so the source's default `cache_time = 60*4` s
and `timeout = 60*15` s become 2400 and 9000 ticks.  `cache.get` of an
absent or expired key returns Python `None`. -/

/-- One cache line: the stored value and its absolute expiry tick. -/
structure CacheEntry where
  val : PyVal
  expires : Nat
deriving DecidableEq, Repr

/-- The shared cache store. -/
abbrev Cache := List (String × CacheEntry)

/-- Django `cache.get(key)` at tick `now`: the stored value, or `None` when
the key is absent or its entry has expired. -/
def cacheGet (c : Cache) (now : Nat) (k : String) : PyVal :=
  match List.lookup k c with
  | some e => if now < e.expires then e.val else PyVal.none
  | Option.none => PyVal.none

/-- Django `cache.set(key, value, ttl)` at tick `now`. -/
def cacheSet (c : Cache) (now : Nat) (k : String) (v : PyVal) (ttl : Nat) : Cache :=
  (k, ⟨v, now + ttl⟩) :: c

/-! ## The memoization engine (`memoize_query` in decorators.py) -/

/-- Constructor-time configuration of `memoize_query` (defaults of the
source, in ticks). -/
structure MemoConfig where
  cache_time : Nat := 2400
  timeout : Nat := 9000
  ignores : List String :=
    ["<class 'pymongo.database.Database'>", "<class 'fs.osfs.OSFS'>"]
  key_override : Option String := Option.none
deriving DecidableEq, Repr

/-- Python exceptions as the engine distinguishes them: the `KeyError`
raised by force-retrieve mode (carrying its message), or an arbitrary
exception raised by the wrapped function. -/
inductive PyExc where
  | keyError (msg : String)
  | exc (v : PyVal)
deriving DecidableEq, Repr

/-- Outcome of a Python call: a returned value or a raised exception. -/
inductive PyResult where
  | ok (v : PyVal)
  | exn (e : PyExc)
deriving DecidableEq, Repr

/-- A wrapped Python function: its identity (`__name__`, `__module__`), its
`inspect.getargspec` shape, and its behaviour when called with positional
and keyword arguments. -/
structure PyFunc where
  name : String
  module : String
  spec_args : List String
  spec_varargs : Bool
  spec_keywords : Bool
  impl : List PyVal → List (String × PyVal) → PyResult

/-- Helper `isuseful` of `memoize_query`: an argument is kept for key
derivation unless `str(type(a))` is in the ignore list. -/
def isuseful (a : PyVal) (ignores : List String) : Bool :=
  if ignores.contains (pyTypeStr a) then false else true

/-- Helper `make_cache_key` of `memoize_query`: the MD4 hexdigest of the
`str` of the canonical dict (serialized in its literal key order, matching
the source's stable-dump assumption), unless a `key_override` is
configured, in which case the override is returned verbatim. -/
def make_cache_key (cfg : MemoConfig) (f : PyFunc)
    (args : List PyVal) (kwargs : List (String × PyVal)) : String :=
  let s := "\x7b'uniquifier': 'anevt.memoize', 'name': " ++ pyRepr (PyVal.str f.name) ++
    ", 'module': " ++ pyRepr (PyVal.str f.module) ++
    ", 'args': " ++ pyListRepr (args.filter (fun a => isuseful a cfg.ignores)) ++
    ", 'kwargs': " ++ pyDictRepr kwargs ++ "\x7d"
  match cfg.key_override with
  | some k => k
  | Option.none => md4Hex s

/-- The argument dispatch of `compute_and_cache`: the source inspects the
argspec of `f` and calls `f(*args, **kwargs)` only when `f` declares a
keyword catch-all, `f(*args)` when it declares positional or vararg
parameters but no catch-all, and `f()` otherwise. -/
def dispatch_call (f : PyFunc) (args : List PyVal)
    (kwargs : List (String × PyVal)) : PyResult :=
  if f.spec_varargs || !f.spec_args.isEmpty then
    if f.spec_keywords then f.impl args kwargs else f.impl args []
  else f.impl [] []

/-- Result of one engine call: the returned value or raised exception, the
cache afterwards, the tick afterwards, and how many times the wrapped
function was executed (instrumentation for the execution-count claims). -/
structure CallOut where
  result : PyResult
  cache : Cache
  time : Nat
  calls : Nat
deriving DecidableEq, Repr

/-- Helper `compute_and_cache` of `memoize_query`: publish the
`'Processing'` sentinel with the short timeout, execute `f`, publish the
result with the long time-to-live.  A raised exception propagates and skips
the second publish. -/
def compute_and_cache (cfg : MemoConfig) (f : PyFunc) (key : String)
    (args : List PyVal) (kwargs : List (String × PyVal))
    (c : Cache) (now : Nat) : CallOut :=
  let c1 := cacheSet c now key (PyVal.str "Processing") cfg.timeout
  match dispatch_call f args kwargs with
  | PyResult.exn e => ⟨PyResult.exn e, c1, now, 1⟩
  | PyResult.ok r => ⟨PyResult.ok r, cacheSet c1 now key r cfg.cache_time, now, 1⟩

/-- The polling loop of `get_from_cache_if_possible`:
`while cached == 'Processing': cached = cache.get(key); time.sleep(0.1)`.
`view t` is what `cache.get` returns at tick `t` (other processes may be
writing, so the view is time-indexed); the loop is fuel-driven because an
adversarial environment can keep it spinning forever. -/
def cache_poll (view : Nat → PyVal) : Nat → Nat → PyVal × Nat
  | 0, t => (view t, t)
  | fuel+1, t =>
    if view t = PyVal.str "Processing" then cache_poll view fuel (t + 1)
    else (view t, t)

/-- Fuel that suffices for the poll on a cache nobody else writes to: once
the entry holding the sentinel expires, `cache.get` returns `None` and the
loop exits. -/
def pollFuel (c : Cache) (k : String) (now : Nat) : Nat :=
  match List.lookup k c with
  | some e => e.expires - now
  | Option.none => 0

/-- Helper `get_from_cache_if_possible` of `memoize_query` on a cache with
no concurrent writers: poll until the value is no longer the sentinel;
returns the final `cache.get` outcome and the tick at which the wait
ended. -/
def get_from_cache_if_possible (c : Cache) (k : String) (now : Nat) : PyVal × Nat :=
  cache_poll (fun t => cacheGet c t k) (pollFuel c k now) now

/-- Default operating mode `opmode_default`: derive the key, read through
the wait, return a truthy cached value, otherwise compute and cache. -/
def opmode_default (cfg : MemoConfig) (f : PyFunc) (args : List PyVal)
    (kwargs : List (String × PyVal)) (c : Cache) (now : Nat) : CallOut :=
  let key := make_cache_key cfg f args kwargs
  let vt := get_from_cache_if_possible c key now
  if pyTruthy vt.1 then ⟨PyResult.ok vt.1, c, vt.2, 0⟩
  else compute_and_cache cfg f key args kwargs c vt.2

/-- Force-recompute mode `opmode_forcememoize`: recompute and store,
regardless of whether the key is in the cache. -/
def opmode_forcememoize (cfg : MemoConfig) (f : PyFunc) (args : List PyVal)
    (kwargs : List (String × PyVal)) (c : Cache) (now : Nat) : CallOut :=
  let key := make_cache_key cfg f args kwargs
  compute_and_cache cfg f key args kwargs c now

/-- Force-retrieve mode `opmode_forceretrieve`: retrieve from cache if
possible, otherwise raise `KeyError('key %s not found in cache' % key)`. -/
def opmode_forceretrieve (cfg : MemoConfig) (f : PyFunc) (args : List PyVal)
    (kwargs : List (String × PyVal)) (c : Cache) (now : Nat) : CallOut :=
  let key := make_cache_key cfg f args kwargs
  let vt := get_from_cache_if_possible c key now
  if !pyTruthy vt.1 then
    ⟨PyResult.exn (PyExc.keyError ("key " ++ key ++ " not found in cache")), c, vt.2, 0⟩
  else ⟨PyResult.ok vt.1, c, vt.2, 0⟩

/-! ## Concurrent-environment view of the read path

For claims about a default-mode caller racing other processes, the cache it
reads is time-indexed: `ctrace t` is the store as other writers have left
it at tick `t`.  A constant trace recovers the sequential definitions. -/

/-- `get_from_cache_if_possible` read against a time-indexed cache. -/
def get_from_cache_trace (ctrace : Nat → Cache) (k : String)
    (fuel now : Nat) : PyVal × Nat :=
  cache_poll (fun t => cacheGet (ctrace t) t k) fuel now

/-- `opmode_default` against a time-indexed cache: same source lines as
`opmode_default`, with the read phase observing the trace and the compute
phase writing to the store as it stands when the wait ends. -/
def opmode_default_trace (cfg : MemoConfig) (f : PyFunc) (args : List PyVal)
    (kwargs : List (String × PyVal)) (ctrace : Nat → Cache)
    (fuel now : Nat) : CallOut :=
  let key := make_cache_key cfg f args kwargs
  let vt := get_from_cache_trace ctrace key fuel now
  if pyTruthy vt.1 then ⟨PyResult.ok vt.1, ctrace vt.2, vt.2, 0⟩
  else compute_and_cache cfg f key args kwargs (ctrace vt.2) vt.2

/-- `N` successive force-recompute calls with identical arguments, threading
cache and clock; returns the final cache, the final tick, and the total
number of executions of the wrapped function. -/
def iter_force (cfg : MemoConfig) (f : PyFunc) (args : List PyVal)
    (kwargs : List (String × PyVal)) : Nat → Cache → Nat → Cache × Nat × Nat
  | 0, c, t => (c, t, 0)
  | n+1, c, t =>
    let o := opmode_forcememoize cfg f args kwargs c t
    let rest := iter_force cfg f args kwargs n o.cache o.time
    (rest.1, rest.2.1, o.calls + rest.2.2)

/-! ## The periodic trigger (`cron`) and the mode-override helpers -/

/-- A Python callable as the `cron` driver sees it: either the object
returned by the `memoize_query` factory — whose direct call is
`opmode_default` and which carries the `force_memoize` / `force_retrieve`
attributes — or one of those attribute callables, or a plain undecorated
function. -/
inductive PyCallable where
  | memoDefault (cfg : MemoConfig) (f : PyFunc)
  | memoForce (cfg : MemoConfig) (f : PyFunc)
  | memoRetrieve (cfg : MemoConfig) (f : PyFunc)
  | plain (f : PyFunc)

/-- `hasattr(func, 'force_memoize')`: only the decorated object carries the
attribute. -/
def hasattr_force_memoize : PyCallable → Bool
  | PyCallable.memoDefault _ _ => true
  | _ => false

/-- `mq_force_memoize`: return `func.force_memoize` when the attribute
exists, otherwise `func` itself. -/
def mq_force_memoize (func : PyCallable) : PyCallable :=
  if hasattr_force_memoize func then
    match func with
    | PyCallable.memoDefault cfg f => PyCallable.memoForce cfg f
    | other => other
  else func

/-- Invoking a callable on the shared cache: the decorated object's direct
call is default mode, its attributes are the forced modes, and a plain
function just runs. -/
def callCallable : PyCallable → List PyVal → List (String × PyVal) →
    Cache → Nat → CallOut
  | PyCallable.memoDefault cfg f => opmode_default cfg f
  | PyCallable.memoForce cfg f => opmode_forcememoize cfg f
  | PyCallable.memoRetrieve cfg f => opmode_forceretrieve cfg f
  | PyCallable.plain f => fun args kwargs c t => ⟨f.impl args kwargs, c, t, 1⟩

/-- The body of `cron(...)`'s inner `run`: when `func` is `None` the call
originated from the periodic scheduler and, if `force_memoize` was
configured, the invoked callable is `mq_force_memoize(f)`; any call from
ordinary code (func is the wrapped `f` itself) invokes `f`.  Returns the
callable that `run` hands to `optional_parameter_call`. -/
def cron_run (force_memoize : Bool) (f : PyCallable)
    (funcArg : Option PyCallable) : PyCallable :=
  let called_as_periodic := funcArg.isNone
  if called_as_periodic then
    if force_memoize then mq_force_memoize f else f
  else f

/-! ## Concrete instances used by counterexamples and witnesses -/

/-- The source's default `memoize_query` configuration. -/
def cfgD : MemoConfig := {}

/-- A configuration with a fixed override key (callers sharing a cache
line across argument variations). -/
def cfgO : MemoConfig := { key_override := some "sharedkey" }

/-- A parameterless wrapped function returning the falsy integer 0. -/
def fZero : PyFunc := ⟨"f", "m", [], false, false, fun _ _ => PyResult.ok (PyVal.int 0)⟩

/-- A parameterless wrapped function returning the truthy integer 7. -/
def fSeven : PyFunc := ⟨"g", "m", [], false, false, fun _ _ => PyResult.ok (PyVal.int 7)⟩

/-- A wrapped function `gab(a, b=0)` returning `a + b`: positional
parameters, no keyword catch-all, keyword `b` defaulting to 0 when the
call does not supply it. -/
def gAB : PyFunc :=
  ⟨"gab", "m", ["a", "b"], false, false, fun pos kw =>
    match pos, List.lookup "b" kw with
    | [PyVal.int a], some (PyVal.int b) => PyResult.ok (PyVal.int (a + b))
    | [PyVal.int a], Option.none => PyResult.ok (PyVal.int a)
    | _, _ => PyResult.exn (PyExc.exc (PyVal.str "TypeError"))⟩

/-- A parameterless wrapped function whose result is the sentinel string
itself. -/
def fProc : PyFunc := ⟨"h", "m", [], false, false, fun _ _ => PyResult.ok (PyVal.str "Processing")⟩

/-- A parameterless wrapped function that raises. -/
def fBoom : PyFunc := ⟨"boom", "m", [], false, false, fun _ _ => PyResult.exn (PyExc.exc (PyVal.str "ValueError"))⟩

/-- A wrapped function declaring a positional parameter and a keyword
catch-all: returns how many positional plus keyword arguments it
received. -/
def fKW : PyFunc :=
  ⟨"kw", "m", ["a"], false, true,
   fun pos kw => PyResult.ok (PyVal.int (pos.length + kw.length))⟩

/-- Cache state after one force-recompute of `fZero`: the derived key holds
the complete (falsy) result 0. -/
def cZero : Cache := (opmode_forcememoize cfgD fZero [] [] [] 0).cache

/-- A cache whose entry at the derived key of `fProc` is the sentinel
string, expiring at tick 3. -/
def cSent : Cache := [(make_cache_key cfgD fProc [] [], ⟨PyVal.str "Processing", 3⟩)]

/-- A time-indexed cache in which another process, one tick after our
caller starts, replaces the in-progress marker with the completed falsy
result 0. -/
def ctraceX : Nat → Cache := fun t =>
  if t = 0 then [(make_cache_key cfgD fSeven [] [], ⟨PyVal.str "Processing", 9000⟩)]
  else [(make_cache_key cfgD fSeven [] [], ⟨PyVal.int 0, 9000⟩)]

/-- A time-indexed cache in which the in-progress marker expires one tick
after our caller starts, no completion ever arriving. -/
def ctraceW : Nat → Cache := fun t =>
  if t = 0 then [(make_cache_key cfgD fSeven [] [], ⟨PyVal.str "Processing", 1⟩)] else []

/-! ## Polling and cache lemmas -/

/-- A poll that observes a non-sentinel value stops at once, whatever the
fuel. -/
theorem cache_poll_stop (view : Nat → PyVal) (fuel t : Nat)
    (h : ¬ view t = PyVal.str "Processing") :
    cache_poll view fuel t = (view t, t) := by
  cases fuel <;> simp [cache_poll, h]

/-- If the view stops being the sentinel within `n ≤ fuel` ticks, the poll
returns the value it observes at its final tick, that value is not the
sentinel, and the final tick lies within the window. -/
theorem cache_poll_bounded (view : Nat → PyVal) (n : Nat) :
    ∀ fuel t0 : Nat, n ≤ fuel → view (t0 + n) ≠ PyVal.str "Processing" →
      (cache_poll view fuel t0).1 = view (cache_poll view fuel t0).2 ∧
      (cache_poll view fuel t0).1 ≠ PyVal.str "Processing" ∧
      t0 ≤ (cache_poll view fuel t0).2 ∧
      (cache_poll view fuel t0).2 ≤ t0 + n := by
  induction n with
  | zero =>
    intro fuel t0 _ hterm
    rw [cache_poll_stop view fuel t0 (by simpa using hterm)]
    simpa using hterm
  | succ m ih =>
    intro fuel t0 hn hterm
    by_cases hv : view t0 = PyVal.str "Processing"
    · obtain ⟨fu, rfl⟩ : ∃ fu, fuel = fu + 1 := ⟨fuel - 1, by omega⟩
      have hstep : cache_poll view (fu + 1) t0 = cache_poll view fu (t0 + 1) := by
        simp [cache_poll, hv]
      rw [hstep]
      have hrec := ih fu (t0 + 1) (by omega)
        (by rw [show t0 + 1 + m = t0 + (m + 1) by omega]; exact hterm)
      exact ⟨hrec.1, hrec.2.1, by omega, by omega⟩
    · rw [cache_poll_stop view fuel t0 hv]
      exact ⟨rfl, hv, Nat.le_refl _, by omega⟩

/-- Looking up the key just written. -/
theorem lookup_cacheSet_self (c : Cache) (now : Nat) (k : String) (v : PyVal) (ttl : Nat) :
    List.lookup k (cacheSet c now k v ttl) = some ⟨v, now + ttl⟩ := by
  simp [cacheSet, List.lookup]

/-- Reading the key just written, before it expires. -/
theorem cacheGet_cacheSet_self (c : Cache) (now : Nat) (k : String) (v : PyVal)
    (ttl t : Nat) (h : t < now + ttl) :
    cacheGet (cacheSet c now k v ttl) t k = v := by
  simp [cacheGet, lookup_cacheSet_self, h]

/-- The sequential cache wait: its outcome is what `cache.get` returns at
the tick the wait ends, that outcome is never the sentinel, and time only
moves forward. -/
theorem gfc_spec (c : Cache) (k : String) (now : Nat) :
    (get_from_cache_if_possible c k now).1 =
      cacheGet c (get_from_cache_if_possible c k now).2 k ∧
    (get_from_cache_if_possible c k now).1 ≠ PyVal.str "Processing" ∧
    now ≤ (get_from_cache_if_possible c k now).2 := by
  have hterm : cacheGet c (now + pollFuel c k now) k ≠ PyVal.str "Processing" := by
    unfold pollFuel
    cases hl : List.lookup k c with
    | none => simp [cacheGet, hl]
    | some e =>
      simp only [cacheGet, hl]
      rw [if_neg (by omega)]
      simp
  have h := cache_poll_bounded (fun t => cacheGet c t k) (pollFuel c k now)
    (pollFuel c k now) now (Nat.le_refl _) hterm
  exact ⟨h.1, h.2.1, h.2.2.1⟩

/-- A sequential wait that starts on a non-sentinel value ends at once. -/
theorem gfc_stop (c : Cache) (k : String) (now : Nat)
    (h : ¬ cacheGet c now k = PyVal.str "Processing") :
    get_from_cache_if_possible c k now = (cacheGet c now k, now) := by
  unfold get_from_cache_if_possible
  exact cache_poll_stop _ _ _ h

/-- Unfolding `opmode_default` to its branch structure. -/
theorem opmode_default_eq (cfg : MemoConfig) (f : PyFunc) (args : List PyVal)
    (kwargs : List (String × PyVal)) (c : Cache) (t0 : Nat) :
    opmode_default cfg f args kwargs c t0 =
      if pyTruthy (get_from_cache_if_possible c (make_cache_key cfg f args kwargs) t0).1 then
        ⟨PyResult.ok (get_from_cache_if_possible c (make_cache_key cfg f args kwargs) t0).1,
         c, (get_from_cache_if_possible c (make_cache_key cfg f args kwargs) t0).2, 0⟩
      else
        compute_and_cache cfg f (make_cache_key cfg f args kwargs) args kwargs c
          (get_from_cache_if_possible c (make_cache_key cfg f args kwargs) t0).2 := rfl

/-- `compute_and_cache` when the wrapped function returns. -/
theorem compute_and_cache_ok (cfg : MemoConfig) (f : PyFunc) (key : String)
    (args : List PyVal) (kwargs : List (String × PyVal)) (c : Cache) (now : Nat)
    (r : PyVal) (h : dispatch_call f args kwargs = PyResult.ok r) :
    compute_and_cache cfg f key args kwargs c now =
      ⟨PyResult.ok r,
       cacheSet (cacheSet c now key (PyVal.str "Processing") cfg.timeout) now key r cfg.cache_time,
       now, 1⟩ := by
  unfold compute_and_cache
  rw [h]

/-- `compute_and_cache` when the wrapped function raises: the exception
propagates and only the sentinel write remains. -/
theorem compute_and_cache_exn (cfg : MemoConfig) (f : PyFunc) (key : String)
    (args : List PyVal) (kwargs : List (String × PyVal)) (c : Cache) (now : Nat)
    (e : PyExc) (h : dispatch_call f args kwargs = PyResult.exn e) :
    compute_and_cache cfg f key args kwargs c now =
      ⟨PyResult.exn e, cacheSet c now key (PyVal.str "Processing") cfg.timeout, now, 1⟩ := by
  unfold compute_and_cache
  rw [h]

/-- `compute_and_cache` always executes the wrapped function exactly once. -/
theorem compute_and_cache_calls (cfg : MemoConfig) (f : PyFunc) (key : String)
    (args : List PyVal) (kwargs : List (String × PyVal)) (c : Cache) (now : Nat) :
    (compute_and_cache cfg f key args kwargs c now).calls = 1 := by
  unfold compute_and_cache
  cases dispatch_call f args kwargs <;> simp

/-- When the wrapped function declares positional (or vararg) parameters
and a keyword catch-all, the argspec dispatch passes the caller's
arguments through exactly. -/
theorem dispatch_call_catchall (f : PyFunc) (args : List PyVal)
    (kwargs : List (String × PyVal)) (hkw : f.spec_keywords = true)
    (hpos : f.spec_varargs = true ∨ f.spec_args ≠ []) :
    dispatch_call f args kwargs = f.impl args kwargs := by
  unfold dispatch_call
  have hcond : (f.spec_varargs || !f.spec_args.isEmpty) = true := by
    rcases hpos with h | h
    · simp [h]
    · cases hargs : f.spec_args with
      | nil => exact absurd hargs h
      | cons a l => simp [hargs]
  rw [hcond]
  simp [hkw]

/-! ## Claim C1 -/

/-- C1 (amended): for a wrapped function whose execution result is truthy
and is not the sentinel string, and a positive result time-to-live, calling
default mode twice in sequence with identical arguments and no time passing
between the calls executes the wrapped function at most once, and both
calls return the same result. -/
theorem c1_cache_hit_idempotence_truthy
    (cfg : MemoConfig) (f : PyFunc) (args : List PyVal)
    (kwargs : List (String × PyVal)) (c : Cache) (t0 : Nat) (r : PyVal)
    (hct : 0 < cfg.cache_time)
    (hcall : dispatch_call f args kwargs = PyResult.ok r)
    (htr : pyTruthy r = true)
    (hnp : r ≠ PyVal.str "Processing") :
    (opmode_default cfg f args kwargs c t0).calls +
      (opmode_default cfg f args kwargs
        (opmode_default cfg f args kwargs c t0).cache
        (opmode_default cfg f args kwargs c t0).time).calls ≤ 1 ∧
    (opmode_default cfg f args kwargs c t0).result =
      (opmode_default cfg f args kwargs
        (opmode_default cfg f args kwargs c t0).cache
        (opmode_default cfg f args kwargs c t0).time).result := by
  obtain ⟨hv_eq, hv_ne, -⟩ := gfc_spec c (make_cache_key cfg f args kwargs) t0
  by_cases htr1 :
      pyTruthy (get_from_cache_if_possible c (make_cache_key cfg f args kwargs) t0).1 = true
  · have ho1 : opmode_default cfg f args kwargs c t0 =
        ⟨PyResult.ok (get_from_cache_if_possible c (make_cache_key cfg f args kwargs) t0).1,
         c, (get_from_cache_if_possible c (make_cache_key cfg f args kwargs) t0).2, 0⟩ := by
      rw [opmode_default_eq, if_pos htr1]
    have hread2 : get_from_cache_if_possible c (make_cache_key cfg f args kwargs)
        (get_from_cache_if_possible c (make_cache_key cfg f args kwargs) t0).2 =
        ((get_from_cache_if_possible c (make_cache_key cfg f args kwargs) t0).1,
         (get_from_cache_if_possible c (make_cache_key cfg f args kwargs) t0).2) := by
      rw [gfc_stop _ _ _ (by rw [← hv_eq]; exact hv_ne), ← hv_eq]
    have ho2 : opmode_default cfg f args kwargs c
        (get_from_cache_if_possible c (make_cache_key cfg f args kwargs) t0).2 =
        ⟨PyResult.ok (get_from_cache_if_possible c (make_cache_key cfg f args kwargs) t0).1,
         c, (get_from_cache_if_possible c (make_cache_key cfg f args kwargs) t0).2, 0⟩ := by
      rw [opmode_default_eq, hread2]
      dsimp only
      rw [if_pos htr1]
    rw [ho1]
    dsimp only
    rw [ho2]
    exact ⟨Nat.zero_le 1, rfl⟩
  · have ho1 : opmode_default cfg f args kwargs c t0 =
        ⟨PyResult.ok r,
         cacheSet (cacheSet c (get_from_cache_if_possible c (make_cache_key cfg f args kwargs) t0).2
             (make_cache_key cfg f args kwargs) (PyVal.str "Processing") cfg.timeout)
           (get_from_cache_if_possible c (make_cache_key cfg f args kwargs) t0).2
           (make_cache_key cfg f args kwargs) r cfg.cache_time,
         (get_from_cache_if_possible c (make_cache_key cfg f args kwargs) t0).2, 1⟩ := by
      rw [opmode_default_eq, if_neg htr1, compute_and_cache_ok _ _ _ _ _ _ _ _ hcall]
    have hget2 : cacheGet
        (cacheSet (cacheSet c (get_from_cache_if_possible c (make_cache_key cfg f args kwargs) t0).2
            (make_cache_key cfg f args kwargs) (PyVal.str "Processing") cfg.timeout)
          (get_from_cache_if_possible c (make_cache_key cfg f args kwargs) t0).2
          (make_cache_key cfg f args kwargs) r cfg.cache_time)
        (get_from_cache_if_possible c (make_cache_key cfg f args kwargs) t0).2
        (make_cache_key cfg f args kwargs) = r :=
      cacheGet_cacheSet_self _ _ _ _ _ _ (by omega)
    have hread2 : get_from_cache_if_possible
        (cacheSet (cacheSet c (get_from_cache_if_possible c (make_cache_key cfg f args kwargs) t0).2
            (make_cache_key cfg f args kwargs) (PyVal.str "Processing") cfg.timeout)
          (get_from_cache_if_possible c (make_cache_key cfg f args kwargs) t0).2
          (make_cache_key cfg f args kwargs) r cfg.cache_time)
        (make_cache_key cfg f args kwargs)
        (get_from_cache_if_possible c (make_cache_key cfg f args kwargs) t0).2 =
        (r, (get_from_cache_if_possible c (make_cache_key cfg f args kwargs) t0).2) := by
      rw [gfc_stop _ _ _ (by rw [hget2]; exact hnp), hget2]
    have ho2 : opmode_default cfg f args kwargs
        (cacheSet (cacheSet c (get_from_cache_if_possible c (make_cache_key cfg f args kwargs) t0).2
            (make_cache_key cfg f args kwargs) (PyVal.str "Processing") cfg.timeout)
          (get_from_cache_if_possible c (make_cache_key cfg f args kwargs) t0).2
          (make_cache_key cfg f args kwargs) r cfg.cache_time)
        (get_from_cache_if_possible c (make_cache_key cfg f args kwargs) t0).2 =
        ⟨PyResult.ok r,
         cacheSet (cacheSet c (get_from_cache_if_possible c (make_cache_key cfg f args kwargs) t0).2
             (make_cache_key cfg f args kwargs) (PyVal.str "Processing") cfg.timeout)
           (get_from_cache_if_possible c (make_cache_key cfg f args kwargs) t0).2
           (make_cache_key cfg f args kwargs) r cfg.cache_time,
         (get_from_cache_if_possible c (make_cache_key cfg f args kwargs) t0).2, 0⟩ := by
      rw [opmode_default_eq, hread2]
      dsimp only
      rw [if_pos htr]
    rw [ho1]
    dsimp only
    rw [ho2]
    exact ⟨Nat.le_refl 1, rfl⟩

/-- C1 (counterexample): for the wrapped function returning the falsy
integer 0 and the default configuration, two immediate default-mode calls
with identical arguments and no expiry elapsed execute the function twice
(both do return the same result). -/
theorem c1_falsy_result_recomputes :
    (opmode_default cfgD fZero [] [] [] 0).calls +
      (opmode_default cfgD fZero [] []
        (opmode_default cfgD fZero [] [] [] 0).cache
        (opmode_default cfgD fZero [] [] [] 0).time).calls = 2 ∧
    (opmode_default cfgD fZero [] [] [] 0).result = PyResult.ok (PyVal.int 0) ∧
    (opmode_default cfgD fZero [] []
        (opmode_default cfgD fZero [] [] [] 0).cache
        (opmode_default cfgD fZero [] [] [] 0).time).result = PyResult.ok (PyVal.int 0) := by
  decide

/-- C1 (witness): the amended statement instantiated at the truthy-valued
function `fSeven`, the default configuration, the empty cache and tick 0. -/
theorem c1_cache_hit_idempotence_truthy_witness :
    0 < cfgD.cache_time ∧
    dispatch_call fSeven [] [] = PyResult.ok (PyVal.int 7) ∧
    pyTruthy (PyVal.int 7) = true ∧
    PyVal.int 7 ≠ PyVal.str "Processing" ∧
    ((opmode_default cfgD fSeven [] [] [] 0).calls +
      (opmode_default cfgD fSeven [] []
        (opmode_default cfgD fSeven [] [] [] 0).cache
        (opmode_default cfgD fSeven [] [] [] 0).time).calls ≤ 1 ∧
    (opmode_default cfgD fSeven [] [] [] 0).result =
      (opmode_default cfgD fSeven [] []
        (opmode_default cfgD fSeven [] [] [] 0).cache
        (opmode_default cfgD fSeven [] [] [] 0).time).result) :=
  ⟨by decide, rfl, rfl, by decide,
   c1_cache_hit_idempotence_truthy cfgD fSeven [] [] [] 0 (PyVal.int 7)
     (by decide) rfl rfl (by decide)⟩

/-! ## Claim C2 -/

/-- C2 (amended): force-retrieve mode never invokes the wrapped function
and never writes to the cache; it fails with a `KeyError` carrying the
derived key exactly when the cache wait yields no truthy value (absent
entry, in-progress wait expiring, or a falsy cached result), and otherwise
returns the value the wait observed. -/
theorem c2_force_retrieve_read_only
    (cfg : MemoConfig) (f : PyFunc) (args : List PyVal)
    (kwargs : List (String × PyVal)) (c : Cache) (now : Nat) :
    (opmode_forceretrieve cfg f args kwargs c now).calls = 0 ∧
    (opmode_forceretrieve cfg f args kwargs c now).cache = c ∧
    (opmode_forceretrieve cfg f args kwargs c now).result =
      (if pyTruthy (get_from_cache_if_possible c (make_cache_key cfg f args kwargs) now).1 then
        PyResult.ok (get_from_cache_if_possible c (make_cache_key cfg f args kwargs) now).1
      else
        PyResult.exn (PyExc.keyError
          ("key " ++ make_cache_key cfg f args kwargs ++ " not found in cache"))) := by
  by_cases h :
      pyTruthy (get_from_cache_if_possible c (make_cache_key cfg f args kwargs) now).1 = true <;>
    simp [opmode_forceretrieve, h]

/-- C2 (counterexample): after force-recomputing `fZero` its derived key
holds the complete cached result 0 — reachable with no wait at all — yet a
force-retrieve call raises `KeyError` instead of returning it. -/
theorem c2_falsy_cached_result_raises :
    cacheGet cZero 0 (make_cache_key cfgD fZero [] []) = PyVal.int 0 ∧
    (opmode_forceretrieve cfgD fZero [] [] cZero 0).result =
      PyResult.exn (PyExc.keyError
        ("key " ++ make_cache_key cfgD fZero [] [] ++ " not found in cache")) := by
  decide

/-! ## Claim C8 -/

/-- C8: a force-retrieve call performs no write to the cache — the cache
after the call, whether it returned a result or raised, is the cache it was
given. -/
theorem c8_force_retrieve_pure
    (cfg : MemoConfig) (f : PyFunc) (args : List PyVal)
    (kwargs : List (String × PyVal)) (c : Cache) (now : Nat) :
    (opmode_forceretrieve cfg f args kwargs c now).cache = c := by
  by_cases h :
      pyTruthy (get_from_cache_if_possible c (make_cache_key cfg f args kwargs) now).1 = true <;>
    simp [opmode_forceretrieve, h]

/-! ## Claim C9 -/

/-- C9: under the periodic trigger with `force_memoize` enabled, a
schedule-originated invocation (the scheduler passes `func=None`) calls the
memoize-decorated function through force-recompute mode, while an
invocation from ordinary code calls it through default mode; with the
option disabled both origins use default mode. -/
theorem c9_cron_mode_selection (cfg : MemoConfig) (f : PyFunc) (g : PyCallable) :
    callCallable (cron_run true (PyCallable.memoDefault cfg f) Option.none) =
      opmode_forcememoize cfg f ∧
    callCallable (cron_run true (PyCallable.memoDefault cfg f) (some g)) =
      opmode_default cfg f ∧
    callCallable (cron_run false (PyCallable.memoDefault cfg f) Option.none) =
      opmode_default cfg f ∧
    callCallable (cron_run false (PyCallable.memoDefault cfg f) (some g)) =
      opmode_default cfg f :=
  ⟨rfl, rfl, rfl, rfl⟩

/-! ## Claim C3 -/

/-- C3 (amended): when the wrapped function declares positional (or vararg)
parameters and a keyword catch-all, a default-mode call that reaches the
compute step executes the function with exactly the caller's positional
and keyword arguments, then publishes the result with the long
time-to-live. -/
theorem c3_kwargs_passthrough_with_catchall
    (cfg : MemoConfig) (f : PyFunc) (args : List PyVal)
    (kwargs : List (String × PyVal)) (c : Cache) (t0 : Nat) (r : PyVal)
    (hkw : f.spec_keywords = true)
    (hpos : f.spec_varargs = true ∨ f.spec_args ≠ [])
    (hmiss : ¬ pyTruthy (get_from_cache_if_possible c (make_cache_key cfg f args kwargs) t0).1 = true)
    (hcall : f.impl args kwargs = PyResult.ok r) :
    opmode_default cfg f args kwargs c t0 =
      ⟨PyResult.ok r,
       cacheSet (cacheSet c (get_from_cache_if_possible c (make_cache_key cfg f args kwargs) t0).2
           (make_cache_key cfg f args kwargs) (PyVal.str "Processing") cfg.timeout)
         (get_from_cache_if_possible c (make_cache_key cfg f args kwargs) t0).2
         (make_cache_key cfg f args kwargs) r cfg.cache_time,
       (get_from_cache_if_possible c (make_cache_key cfg f args kwargs) t0).2, 1⟩ := by
  rw [opmode_default_eq, if_neg hmiss,
    compute_and_cache_ok _ _ _ _ _ _ _ _
      (by rw [dispatch_call_catchall f args kwargs hkw hpos]; exact hcall)]

/-- C3 (counterexample): `gab(a, b=0)` has no keyword catch-all; the
default-mode call with positional argument 1 and keyword argument `b=3`
executes `gab` without the keyword (result 1), although calling `gab` with
exactly the supplied arguments returns 4. -/
theorem c3_kwargs_dropped_without_catchall :
    (opmode_default cfgD gAB [PyVal.int 1] [("b", PyVal.int 3)] [] 0).result =
      PyResult.ok (PyVal.int 1) ∧
    gAB.impl [PyVal.int 1] [("b", PyVal.int 3)] = PyResult.ok (PyVal.int 4) := by
  decide

/-- C3 (witness): the amended statement instantiated at `fKW` (which has a
keyword catch-all), one positional and one keyword argument, the empty
cache and tick 0. -/
theorem c3_kwargs_passthrough_with_catchall_witness :
    fKW.spec_keywords = true ∧
    (fKW.spec_varargs = true ∨ fKW.spec_args ≠ []) ∧
    (¬ pyTruthy (get_from_cache_if_possible []
        (make_cache_key cfgD fKW [PyVal.int 1] [("b", PyVal.int 3)]) 0).1 = true) ∧
    fKW.impl [PyVal.int 1] [("b", PyVal.int 3)] = PyResult.ok (PyVal.int 2) ∧
    opmode_default cfgD fKW [PyVal.int 1] [("b", PyVal.int 3)] [] 0 =
      ⟨PyResult.ok (PyVal.int 2),
       cacheSet (cacheSet []
           (get_from_cache_if_possible []
             (make_cache_key cfgD fKW [PyVal.int 1] [("b", PyVal.int 3)]) 0).2
           (make_cache_key cfgD fKW [PyVal.int 1] [("b", PyVal.int 3)])
           (PyVal.str "Processing") cfgD.timeout)
         (get_from_cache_if_possible []
           (make_cache_key cfgD fKW [PyVal.int 1] [("b", PyVal.int 3)]) 0).2
         (make_cache_key cfgD fKW [PyVal.int 1] [("b", PyVal.int 3)])
         (PyVal.int 2) cfgD.cache_time,
       (get_from_cache_if_possible []
         (make_cache_key cfgD fKW [PyVal.int 1] [("b", PyVal.int 3)]) 0).2, 1⟩ :=
  ⟨rfl, Or.inr (by decide), by decide, rfl,
   c3_kwargs_passthrough_with_catchall cfgD fKW [PyVal.int 1] [("b", PyVal.int 3)]
     [] 0 (PyVal.int 2) rfl (Or.inr (by decide)) (by decide) rfl⟩

/-! ## Claim C4 -/

/-- Force-recompute executes the wrapped function exactly once per call,
whatever it returns or raises. -/
theorem opmode_forcememoize_calls (cfg : MemoConfig) (f : PyFunc)
    (args : List PyVal) (kwargs : List (String × PyVal)) (c : Cache) (t0 : Nat) :
    (opmode_forcememoize cfg f args kwargs c t0).calls = 1 := by
  unfold opmode_forcememoize
  exact compute_and_cache_calls _ _ _ _ _ _ _

/-- Iterated force-recompute executes the wrapped function exactly `N`
times in `N` calls, from any starting cache state. -/
theorem iter_force_count (cfg : MemoConfig) (f : PyFunc) (args : List PyVal)
    (kwargs : List (String × PyVal)) :
    ∀ (N : Nat) (c : Cache) (t0 : Nat),
      (iter_force cfg f args kwargs N c t0).2.2 = N := by
  intro N
  induction N with
  | zero => intro c t0; rfl
  | succ n ih =>
    intro c t0
    simp only [iter_force]
    rw [opmode_forcememoize_calls, ih]
    omega

/-- C4: `N` force-recompute calls with identical arguments execute the
wrapped function exactly `N` times regardless of the starting cache state,
and each call publishes the in-progress sentinel with the short timeout
and then the result with the long time-to-live. -/
theorem c4_force_recompute_always_executes
    (cfg : MemoConfig) (f : PyFunc) (args : List PyVal)
    (kwargs : List (String × PyVal)) (r : PyVal)
    (hcall : dispatch_call f args kwargs = PyResult.ok r) :
    ∀ (N : Nat) (c : Cache) (t0 : Nat),
      (iter_force cfg f args kwargs N c t0).2.2 = N ∧
      opmode_forcememoize cfg f args kwargs c t0 =
        ⟨PyResult.ok r,
         cacheSet (cacheSet c t0 (make_cache_key cfg f args kwargs)
             (PyVal.str "Processing") cfg.timeout)
           t0 (make_cache_key cfg f args kwargs) r cfg.cache_time,
         t0, 1⟩ := by
  intro N c t0
  refine ⟨iter_force_count cfg f args kwargs N c t0, ?_⟩
  unfold opmode_forcememoize
  rw [compute_and_cache_ok _ _ _ _ _ _ _ _ hcall]

/-- C4 (witness): three force-recompute calls of `fSeven` on the empty
cache execute it three times, each publishing sentinel then result. -/
theorem c4_force_recompute_always_executes_witness :
    dispatch_call fSeven [] [] = PyResult.ok (PyVal.int 7) ∧
    ((iter_force cfgD fSeven [] [] 3 [] 0).2.2 = 3 ∧
     opmode_forcememoize cfgD fSeven [] [] [] 0 =
       ⟨PyResult.ok (PyVal.int 7),
        cacheSet (cacheSet [] 0 (make_cache_key cfgD fSeven [] [])
            (PyVal.str "Processing") cfgD.timeout)
          0 (make_cache_key cfgD fSeven [] []) (PyVal.int 7) cfgD.cache_time,
        0, 1⟩) :=
  ⟨rfl, c4_force_recompute_always_executes cfgD fSeven [] [] (PyVal.int 7) rfl 3 [] 0⟩

/-! ## Claim C7 -/

/-- C7: when the wrapped function raises, the exception propagates to the
immediate caller untranslated, in force-recompute mode and in default mode
reaching the compute step alike; the final cache write is the in-progress
sentinel expiring one short-timeout after the compute step began (never a
rollback to absent or a completion), and reading the key at that expiry
tick already yields absent. -/
theorem c7_exception_propagates_sentinel_persists
    (cfg : MemoConfig) (f : PyFunc) (args : List PyVal)
    (kwargs : List (String × PyVal)) (c : Cache) (t0 : Nat) (e : PyExc)
    (herr : dispatch_call f args kwargs = PyResult.exn e)
    (hmiss : ¬ pyTruthy (get_from_cache_if_possible c (make_cache_key cfg f args kwargs) t0).1 = true) :
    opmode_forcememoize cfg f args kwargs c t0 =
      ⟨PyResult.exn e,
       cacheSet c t0 (make_cache_key cfg f args kwargs) (PyVal.str "Processing") cfg.timeout,
       t0, 1⟩ ∧
    opmode_default cfg f args kwargs c t0 =
      ⟨PyResult.exn e,
       cacheSet c (get_from_cache_if_possible c (make_cache_key cfg f args kwargs) t0).2
         (make_cache_key cfg f args kwargs) (PyVal.str "Processing") cfg.timeout,
       (get_from_cache_if_possible c (make_cache_key cfg f args kwargs) t0).2, 1⟩ ∧
    cacheGet (cacheSet c t0 (make_cache_key cfg f args kwargs)
        (PyVal.str "Processing") cfg.timeout)
      (t0 + cfg.timeout) (make_cache_key cfg f args kwargs) = PyVal.none := by
  refine ⟨?_, ?_, ?_⟩
  · unfold opmode_forcememoize
    rw [compute_and_cache_exn _ _ _ _ _ _ _ _ herr]
  · rw [opmode_default_eq, if_neg hmiss, compute_and_cache_exn _ _ _ _ _ _ _ _ herr]
  · simp [cacheGet, lookup_cacheSet_self]

/-- C7 (witness): the raising function `fBoom` on the empty cache at tick
0: the `ValueError` propagates from both modes and the sentinel write is
all that remains. -/
theorem c7_exception_propagates_sentinel_persists_witness :
    dispatch_call fBoom [] [] = PyResult.exn (PyExc.exc (PyVal.str "ValueError")) ∧
    (¬ pyTruthy (get_from_cache_if_possible [] (make_cache_key cfgD fBoom [] []) 0).1 = true) ∧
    (opmode_forcememoize cfgD fBoom [] [] [] 0 =
      ⟨PyResult.exn (PyExc.exc (PyVal.str "ValueError")),
       cacheSet [] 0 (make_cache_key cfgD fBoom [] []) (PyVal.str "Processing") cfgD.timeout,
       0, 1⟩ ∧
    opmode_default cfgD fBoom [] [] [] 0 =
      ⟨PyResult.exn (PyExc.exc (PyVal.str "ValueError")),
       cacheSet [] (get_from_cache_if_possible [] (make_cache_key cfgD fBoom [] []) 0).2
         (make_cache_key cfgD fBoom [] []) (PyVal.str "Processing") cfgD.timeout,
       (get_from_cache_if_possible [] (make_cache_key cfgD fBoom [] []) 0).2, 1⟩ ∧
    cacheGet (cacheSet [] 0 (make_cache_key cfgD fBoom [] [])
        (PyVal.str "Processing") cfgD.timeout)
      (0 + cfgD.timeout) (make_cache_key cfgD fBoom [] []) = PyVal.none) :=
  ⟨rfl, by decide,
   c7_exception_propagates_sentinel_persists cfgD fBoom [] [] [] 0
     (PyExc.exc (PyVal.str "ValueError")) rfl (by decide)⟩

/-! ## Claim C10 -/

/-- C10: the in-progress state is the literal string `'Processing'` and
readers classify entries solely by equality with it; publishing a result
equal to that string writes an entry indistinguishable from an in-flight
marker, and whenever the entry at the derived key holds that string —
marker or published result alike — a default-mode call never returns it as
a hit (it executes the wrapped function), and a force-retrieve call raises
`KeyError`. -/
theorem c10_sentinel_result_never_hit
    (cfg : MemoConfig) (f : PyFunc) (args : List PyVal)
    (kwargs : List (String × PyVal)) (c : Cache) (t0 e : Nat)
    (hdisp : dispatch_call f args kwargs = PyResult.ok (PyVal.str "Processing"))
    (h : List.lookup (make_cache_key cfg f args kwargs) c =
      some ⟨PyVal.str "Processing", e⟩) :
    (opmode_forcememoize cfg f args kwargs c t0).cache =
      cacheSet (cacheSet c t0 (make_cache_key cfg f args kwargs)
          (PyVal.str "Processing") cfg.timeout)
        t0 (make_cache_key cfg f args kwargs) (PyVal.str "Processing") cfg.cache_time ∧
    (opmode_default cfg f args kwargs c t0).calls = 1 ∧
    (opmode_forceretrieve cfg f args kwargs c t0).result =
      PyResult.exn (PyExc.keyError
        ("key " ++ make_cache_key cfg f args kwargs ++ " not found in cache")) := by
  obtain ⟨hv_eq, hv_ne, -⟩ := gfc_spec c (make_cache_key cfg f args kwargs) t0
  have hview : ∀ t, cacheGet c t (make_cache_key cfg f args kwargs) =
      if t < e then PyVal.str "Processing" else PyVal.none := by
    intro t
    simp [cacheGet, h]
  have hfal : (get_from_cache_if_possible c (make_cache_key cfg f args kwargs) t0).1 =
      PyVal.none := by
    rw [hv_eq, hview]
    by_cases hlt :
        (get_from_cache_if_possible c (make_cache_key cfg f args kwargs) t0).2 < e
    · exfalso
      apply hv_ne
      rw [hv_eq, hview, if_pos hlt]
    · rw [if_neg hlt]
  have htrf : ¬ pyTruthy (get_from_cache_if_possible c
      (make_cache_key cfg f args kwargs) t0).1 = true := by
    rw [hfal]
    simp [pyTruthy]
  refine ⟨?_, ?_, ?_⟩
  · unfold opmode_forcememoize
    rw [compute_and_cache_ok _ _ _ _ _ _ _ _ hdisp]
  · rw [opmode_default_eq, if_neg htrf]
    exact compute_and_cache_calls _ _ _ _ _ _ _
  · have hpf : pyTruthy (get_from_cache_if_possible c
        (make_cache_key cfg f args kwargs) t0).1 = false := by
      rw [hfal]
      rfl
    simp [opmode_forceretrieve, hpf]

/-- C10 (witness): `fProc` returns the sentinel string; on a cache whose
entry at its derived key is that string the default-mode call recomputes
and force-retrieve raises. -/
theorem c10_sentinel_result_never_hit_witness :
    dispatch_call fProc [] [] = PyResult.ok (PyVal.str "Processing") ∧
    List.lookup (make_cache_key cfgD fProc [] []) cSent =
      some ⟨PyVal.str "Processing", 3⟩ ∧
    ((opmode_forcememoize cfgD fProc [] [] cSent 0).cache =
      cacheSet (cacheSet cSent 0 (make_cache_key cfgD fProc [] [])
          (PyVal.str "Processing") cfgD.timeout)
        0 (make_cache_key cfgD fProc [] []) (PyVal.str "Processing") cfgD.cache_time ∧
    (opmode_default cfgD fProc [] [] cSent 0).calls = 1 ∧
    (opmode_forceretrieve cfgD fProc [] [] cSent 0).result =
      PyResult.exn (PyExc.keyError
        ("key " ++ make_cache_key cfgD fProc [] [] ++ " not found in cache"))) :=
  ⟨rfl, by decide,
   c10_sentinel_result_never_hit cfgD fProc [] [] cSent 0 3 rfl (by decide)⟩

/-! ## Claim C5 -/

/-- C5 (amended): a default-mode call that observes an in-progress entry
polls at the fixed 0.1 s interval and, provided the value at the key stops
being the sentinel within the wait window (by completion, or by the marker
expiring after its timeout), the wait ends at the first later tick whose
observed value is not the sentinel; if that value is truthy it is returned
as the cached result with no execution, and otherwise — the marker expired,
or the completed value is falsy — the call treats the entry as a miss and
proceeds to compute. -/
theorem c5_poll_first_nonsentinel
    (cfg : MemoConfig) (f : PyFunc) (args : List PyVal)
    (kwargs : List (String × PyVal)) (ctrace : Nat → Cache) (fuel t0 n : Nat)
    (hn : n ≤ fuel)
    (hP : cacheGet (ctrace t0) t0 (make_cache_key cfg f args kwargs) =
      PyVal.str "Processing")
    (hterm : cacheGet (ctrace (t0 + n)) (t0 + n) (make_cache_key cfg f args kwargs) ≠
      PyVal.str "Processing") :
    (get_from_cache_trace ctrace (make_cache_key cfg f args kwargs) fuel t0).1 =
      cacheGet
        (ctrace (get_from_cache_trace ctrace (make_cache_key cfg f args kwargs) fuel t0).2)
        (get_from_cache_trace ctrace (make_cache_key cfg f args kwargs) fuel t0).2
        (make_cache_key cfg f args kwargs) ∧
    (get_from_cache_trace ctrace (make_cache_key cfg f args kwargs) fuel t0).1 ≠
      PyVal.str "Processing" ∧
    t0 < (get_from_cache_trace ctrace (make_cache_key cfg f args kwargs) fuel t0).2 ∧
    (get_from_cache_trace ctrace (make_cache_key cfg f args kwargs) fuel t0).2 ≤ t0 + n ∧
    opmode_default_trace cfg f args kwargs ctrace fuel t0 =
      (if pyTruthy (get_from_cache_trace ctrace (make_cache_key cfg f args kwargs) fuel t0).1 then
        ⟨PyResult.ok (get_from_cache_trace ctrace (make_cache_key cfg f args kwargs) fuel t0).1,
         ctrace (get_from_cache_trace ctrace (make_cache_key cfg f args kwargs) fuel t0).2,
         (get_from_cache_trace ctrace (make_cache_key cfg f args kwargs) fuel t0).2, 0⟩
      else
        compute_and_cache cfg f (make_cache_key cfg f args kwargs) args kwargs
          (ctrace (get_from_cache_trace ctrace (make_cache_key cfg f args kwargs) fuel t0).2)
          (get_from_cache_trace ctrace (make_cache_key cfg f args kwargs) fuel t0).2) := by
  have hb : (get_from_cache_trace ctrace (make_cache_key cfg f args kwargs) fuel t0).1 =
      cacheGet
        (ctrace (get_from_cache_trace ctrace (make_cache_key cfg f args kwargs) fuel t0).2)
        (get_from_cache_trace ctrace (make_cache_key cfg f args kwargs) fuel t0).2
        (make_cache_key cfg f args kwargs) ∧
      (get_from_cache_trace ctrace (make_cache_key cfg f args kwargs) fuel t0).1 ≠
        PyVal.str "Processing" ∧
      t0 ≤ (get_from_cache_trace ctrace (make_cache_key cfg f args kwargs) fuel t0).2 ∧
      (get_from_cache_trace ctrace (make_cache_key cfg f args kwargs) fuel t0).2 ≤ t0 + n :=
    cache_poll_bounded
      (fun t => cacheGet (ctrace t) t (make_cache_key cfg f args kwargs)) n fuel t0 hn hterm
  have hlt : t0 <
      (get_from_cache_trace ctrace (make_cache_key cfg f args kwargs) fuel t0).2 := by
    rcases Nat.lt_or_ge t0
        (get_from_cache_trace ctrace (make_cache_key cfg f args kwargs) fuel t0).2 with hgt | hge
    · exact hgt
    · exfalso
      have heq : (get_from_cache_trace ctrace (make_cache_key cfg f args kwargs) fuel t0).2 =
          t0 := Nat.le_antisymm hge hb.2.2.1
      apply hb.2.1
      have hx := hb.1
      rw [heq] at hx
      rw [hx]
      exact hP
  exact ⟨hb.1, hb.2.1, hlt, hb.2.2.2, rfl⟩

/-- C5 (counterexample): our caller observes the in-progress marker at tick
0; at tick 1 — far below the in-progress timeout — another process has
completed the computation with the falsy result 0; the wait ends on that
completed entry, yet the call does not return it: it recomputes (result 7,
one execution). Neither branch of the claimed dichotomy holds. -/
theorem c5_falsy_completion_recomputes :
    cacheGet (ctraceX 0) 0 (make_cache_key cfgD fSeven [] []) =
      PyVal.str "Processing" ∧
    cacheGet (ctraceX 1) 1 (make_cache_key cfgD fSeven [] []) = PyVal.int 0 ∧
    (1 : Nat) < cfgD.timeout ∧
    (opmode_default_trace cfgD fSeven [] [] ctraceX 2 0).time = 1 ∧
    (opmode_default_trace cfgD fSeven [] [] ctraceX 2 0).calls = 1 ∧
    (opmode_default_trace cfgD fSeven [] [] ctraceX 2 0).result =
      PyResult.ok (PyVal.int 7) := by
  decide

/-- C5 (witness): the amended statement instantiated on the trace whose
in-progress marker expires at tick 1 with no completion: the wait ends at
tick 1 on the absent entry and the call proceeds to compute. -/
theorem c5_poll_first_nonsentinel_witness :
    (1 : Nat) ≤ 1 ∧
    cacheGet (ctraceW 0) 0 (make_cache_key cfgD fSeven [] []) =
      PyVal.str "Processing" ∧
    (cacheGet (ctraceW (0 + 1)) (0 + 1) (make_cache_key cfgD fSeven [] []) ≠
      PyVal.str "Processing") ∧
    ((get_from_cache_trace ctraceW (make_cache_key cfgD fSeven [] []) 1 0).1 =
      cacheGet
        (ctraceW (get_from_cache_trace ctraceW (make_cache_key cfgD fSeven [] []) 1 0).2)
        (get_from_cache_trace ctraceW (make_cache_key cfgD fSeven [] []) 1 0).2
        (make_cache_key cfgD fSeven [] []) ∧
    (get_from_cache_trace ctraceW (make_cache_key cfgD fSeven [] []) 1 0).1 ≠
      PyVal.str "Processing" ∧
    0 < (get_from_cache_trace ctraceW (make_cache_key cfgD fSeven [] []) 1 0).2 ∧
    (get_from_cache_trace ctraceW (make_cache_key cfgD fSeven [] []) 1 0).2 ≤ 0 + 1 ∧
    opmode_default_trace cfgD fSeven [] [] ctraceW 1 0 =
      (if pyTruthy (get_from_cache_trace ctraceW (make_cache_key cfgD fSeven [] []) 1 0).1 then
        ⟨PyResult.ok (get_from_cache_trace ctraceW (make_cache_key cfgD fSeven [] []) 1 0).1,
         ctraceW (get_from_cache_trace ctraceW (make_cache_key cfgD fSeven [] []) 1 0).2,
         (get_from_cache_trace ctraceW (make_cache_key cfgD fSeven [] []) 1 0).2, 0⟩
      else
        compute_and_cache cfgD fSeven (make_cache_key cfgD fSeven [] []) [] []
          (ctraceW (get_from_cache_trace ctraceW (make_cache_key cfgD fSeven [] []) 1 0).2)
          (get_from_cache_trace ctraceW (make_cache_key cfgD fSeven [] []) 1 0).2)) :=
  ⟨by decide, by decide, by decide,
   c5_poll_first_nonsentinel cfgD fSeven [] [] ctraceW 1 0 1
     (by decide) (by decide) (by decide)⟩

/-! ## Claim C6 -/

/-- Replacing a filtered-out element by another filtered-out element leaves
a filtered list unchanged. -/
theorem filter_set_not (p : PyVal → Bool) :
    ∀ (xs : List PyVal) (i : Nat) (b : PyVal), i < xs.length →
      p (xs.getD i PyVal.none) = false → p b = false →
      (xs.set i b).filter p = xs.filter p := by
  intro xs
  induction xs with
  | nil =>
    intro i b hi _ _
    exact absurd hi (by simp)
  | cons x rest ih =>
    intro i b hi hpa hpb
    cases i with
    | zero =>
      have hpx : p x = false := by simpa using hpa
      simp [List.filter_cons, hpx, hpb]
    | succ j =>
      have hpa2 : p (rest.getD j PyVal.none) = false := by simpa using hpa
      simp [List.filter_cons, ih j b (by simpa using hi) hpa2 hpb]

/-- C6 (amended): replacing an argument whose runtime type is in the ignore
set by any other value of an ignored type never changes the derived cache
key (in any configuration, override or not); and in the no-override default
configuration values of non-ignored types can change the key — replacing
the ignored argument by the integers 0 and 1 yields distinct keys. -/
theorem c6_ignore_set_invariance
    (cfg : MemoConfig) (f : PyFunc) (args : List PyVal)
    (kwargs : List (String × PyVal)) (i : Nat) (b : PyVal)
    (hi : i < args.length)
    (ha : cfg.ignores.contains (pyTypeStr (args.getD i PyVal.none)) = true)
    (hb : cfg.ignores.contains (pyTypeStr b) = true) :
    make_cache_key cfg f (args.set i b) kwargs = make_cache_key cfg f args kwargs ∧
    (cfgD.ignores.contains (pyTypeStr (PyVal.int 0)) = false ∧
     cfgD.ignores.contains (pyTypeStr (PyVal.int 1)) = false ∧
     make_cache_key cfgD fZero [PyVal.int 0] [] ≠ make_cache_key cfgD fZero [PyVal.int 1] []) := by
  constructor
  · have hfeq : (args.set i b).filter (fun a => isuseful a cfg.ignores) =
        args.filter (fun a => isuseful a cfg.ignores) := by
      apply filter_set_not _ args i b hi
      · simp only [isuseful]
        rw [ha]
        simp
      · simp only [isuseful]
        rw [hb]
        simp
    unfold make_cache_key
    rw [hfeq]
  · exact ⟨by decide, by decide, by decide⟩

/-- C6 (counterexample): with an override key configured the claim fails —
at a position holding an ignored-type argument, no pair of values of
non-ignored types can make the derived keys differ, because every call maps
to the override key verbatim. -/
theorem c6_override_key_insensitive :
    cfgO.key_override = some "sharedkey" ∧
    cfgO.ignores.contains (pyTypeStr (PyVal.obj "pymongo.database.Database" 7)) = true ∧
    ¬ ∃ b1 b2 : PyVal,
        cfgO.ignores.contains (pyTypeStr b1) = false ∧
        cfgO.ignores.contains (pyTypeStr b2) = false ∧
        make_cache_key cfgO fZero ([PyVal.obj "pymongo.database.Database" 7].set 0 b1) [] ≠
          make_cache_key cfgO fZero ([PyVal.obj "pymongo.database.Database" 7].set 0 b2) [] := by
  refine ⟨rfl, by decide, ?_⟩
  rintro ⟨b1, b2, -, -, hne⟩
  exact hne rfl

/-- C6 (witness): the amended statement instantiated at the default
configuration, a singleton argument list holding a `pymongo` database
instance, and an `OSFS` instance as the replacement. -/
theorem c6_ignore_set_invariance_witness :
    (0 : Nat) < ([PyVal.obj "pymongo.database.Database" 7] : List PyVal).length ∧
    cfgD.ignores.contains
      (pyTypeStr (([PyVal.obj "pymongo.database.Database" 7] : List PyVal).getD 0 PyVal.none)) = true ∧
    cfgD.ignores.contains (pyTypeStr (PyVal.obj "fs.osfs.OSFS" 3)) = true ∧
    (make_cache_key cfgD fZero
        ([PyVal.obj "pymongo.database.Database" 7].set 0 (PyVal.obj "fs.osfs.OSFS" 3)) [] =
      make_cache_key cfgD fZero [PyVal.obj "pymongo.database.Database" 7] [] ∧
    (cfgD.ignores.contains (pyTypeStr (PyVal.int 0)) = false ∧
     cfgD.ignores.contains (pyTypeStr (PyVal.int 1)) = false ∧
     make_cache_key cfgD fZero [PyVal.int 0] [] ≠ make_cache_key cfgD fZero [PyVal.int 1] [])) :=
  ⟨by decide, by decide, by decide,
   c6_ignore_set_invariance cfgD fZero [PyVal.obj "pymongo.database.Database" 7] [] 0
     (PyVal.obj "fs.osfs.OSFS" 3) (by decide) (by decide) (by decide)⟩
